import Mathlib

/-!
Verification development for the NovAlgo Investments wallet ledger.

Shallow embedding of the ledger-relevant parts of the repository:
the Postgres schema and trigger functions (migrations
20250919164503 and 20250919164524) and the page-level handlers that
write ledger rows (Dashboard `handleInvest`, Deposit `handleDeposit`,
Withdraw `handleWithdraw`, Referrals `transferReferralBonus`, and the
signup trigger `handle_new_user`).

Modelling choices:
 - Monetary DECIMAL(15,2) values are embedded as rationals `Rat`
   (exact decimal arithmetic; the code performs only + and -).
 - `updated_at` / `created_at` timestamp bookkeeping is not part of the
   model; no claim concerns it.
 - Tables `wallets` keyed by UNIQUE `user_id` are embedded as a total
   map `String → Wallet` plus a list `walletOwners` of user ids that
   have a wallet row; `UPDATE wallets ... WHERE user_id = u` becomes a
   pointwise function update at `u`.
 - The `transaction_type` enum carries the six values of the generated
   client types (the live schema includes `referral_bonus_transfer`);
   the trigger `update_wallet_balance` has `IF/ELSIF` branches for only
   five of them and falls through doing nothing for
   `referral_bonus_transfer`.
 - Handlers run sequentially; the React cached wallet snapshot
   (`walletData`) is an explicit `cached : Wallet` argument, so claims
   about stale caches and about fresh caches are both statable.
-/

/-- The `transaction_type` enum of the live schema, as listed in the
generated client types (`Constants.public.Enums.transaction_type`). -/
inductive TransactionType where
  | deposit
  | withdrawal
  | investment
  | profit
  | referral_commission
  | referral_bonus_transfer
deriving DecidableEq, BEq

/-- The four balance columns of a `wallets` row
(`main_balance`, `referral_bonus_balance`, `total_invested`,
`total_profits`, all `DECIMAL(15,2) DEFAULT 0.00 NOT NULL`). -/
structure Wallet where
  main_balance : Rat
  referral_bonus_balance : Rat
  total_invested : Rat
  total_profits : Rat
deriving DecidableEq

/-- A freshly created wallet row: every balance has its column default
`0.00` (schema: `INSERT INTO public.wallets (user_id) VALUES (NEW.id)`). -/
def zeroWallet : Wallet :=
  { main_balance := 0, referral_bonus_balance := 0
    total_invested := 0, total_profits := 0 }

/-- A row of the `transactions` table (ledger-relevant columns). -/
structure Txn where
  user_id : String
  type : TransactionType
  amount : Rat
  description : String
  reference_id : Option String
  balance_before : Rat
  balance_after : Rat
deriving DecidableEq

/-- The trigger function `public.update_wallet_balance()` restricted to
one wallet row: the `UPDATE public.wallets SET ... WHERE user_id =
NEW.user_id` performed for each transaction type on `INSERT`.  The
`IF/ELSIF` chain has branches for `deposit`, `withdrawal`, `investment`,
`profit` and `referral_commission` only; any other type (in particular
`referral_bonus_transfer`) falls through the `END IF` and changes
nothing. -/
def update_wallet_balance (w : Wallet) (t : Txn) : Wallet :=
  match t.type with
  | .deposit =>
      { w with main_balance := w.main_balance + t.amount }
  | .withdrawal =>
      { w with main_balance := w.main_balance - t.amount }
  | .investment =>
      { w with main_balance := w.main_balance - t.amount
               total_invested := w.total_invested + t.amount }
  | .profit =>
      { w with main_balance := w.main_balance + t.amount
               total_profits := w.total_profits + t.amount }
  | .referral_commission =>
      { w with referral_bonus_balance := w.referral_bonus_balance + t.amount }
  | .referral_bonus_transfer => w

/-- A row of the `profiles` table (ledger-relevant columns). -/
structure ProfileRow where
  user_id : String
  full_name : String
  phone : String
  email : String
  referral_code : String
deriving DecidableEq

/-- A `deposit_status` / `withdrawal_status` lifecycle value; both
request tables start at `pending`. -/
inductive RequestStatus where
  | pending
  | confirmed
  | approved
  | rejected
deriving DecidableEq, BEq

/-- A row of the `deposits` table (columns the handler writes). -/
structure DepositRow where
  user_id : String
  amount : Rat
  transaction_reference : String
  status : RequestStatus
deriving DecidableEq

/-- A row of the `withdrawals` table (columns the handler writes). -/
structure WithdrawalRow where
  user_id : String
  amount : Rat
  phone_number : String
  status : RequestStatus
deriving DecidableEq

/-- An `investment_status` value. -/
inductive InvestmentStatus where
  | active
  | pending
  | completed
  | cancelled
deriving DecidableEq, BEq

/-- A row of the `investments` table (columns `handleInvest` writes).
`end_date` is modelled as a day offset from an abstract clock `Nat`. -/
structure InvestmentRow where
  id : String
  user_id : String
  package_id : String
  amount : Rat
  expected_return : Rat
  end_date : Nat
  status : InvestmentStatus
deriving DecidableEq

/-- A row of the `investment_packages` catalog table. -/
structure Package where
  id : String
  name : String
  minimum_amount : Rat
  multiplier : Rat
  duration_days : Nat
  active : Bool
deriving DecidableEq

/-- The database state visible to the ledger: the tables the embedded
operations read and write.  `wallets` is the balance content per user
id; `walletOwners` records which user ids have a wallet row (the
UNIQUE `user_id` constraint). -/
structure DB where
  profiles : List ProfileRow
  walletOwners : List String
  wallets : String → Wallet
  transactions : List Txn
  deposits : List DepositRow
  withdrawals : List WithdrawalRow
  investments : List InvestmentRow

/-- `INSERT INTO public.transactions ...` together with the `AFTER
INSERT` trigger `on_transaction_created` executing
`update_wallet_balance`: the row is appended and the wallet row with
`user_id = NEW.user_id` receives the type-dispatched delta.  Neither
the table nor the trigger checks the sign of `amount` or the resulting
balances; the insert cannot fail. -/
def insertTransaction (db : DB) (t : Txn) : DB :=
  { db with
    transactions := db.transactions ++ [t]
    wallets := fun u =>
      if u = t.user_id then update_wallet_balance (db.wallets u) t
      else db.wallets u }

/-- Folding a list of transaction inserts over a database state, in
order. -/
def applyTxns (db : DB) (ts : List Txn) : DB :=
  ts.foldl insertTransaction db

/-- `handleDeposit` (Deposit page): inserts one `deposits` row with the
submitted amount and reference and `status: 'pending'`; it writes
nothing else — no transaction, no wallet change. -/
def handleDeposit (db : DB) (uid : String) (amount : Rat)
    (tref : String) : DB :=
  { db with deposits := db.deposits ++
      [{ user_id := uid, amount := amount, transaction_reference := tref
         status := .pending }] }

/-- `handleWithdraw` (Withdraw page): if the requested amount exceeds
the client-cached `walletData.main_balance` the handler shows an error
and writes nothing; otherwise it inserts one `withdrawals` row with
`status: 'pending'` and writes nothing else. -/
def handleWithdraw (db : DB) (uid : String) (amount : Rat)
    (phone : String) (cached : Wallet) : DB :=
  if cached.main_balance < amount then db
  else
    { db with withdrawals := db.withdrawals ++
        [{ user_id := uid, amount := amount, phone_number := phone
           status := .pending }] }

/-- `canInvest` (Dashboard page): the client-side guard
`walletData.main_balance >= packageData.minimum_amount`. -/
def canInvest (cached : Wallet) (packageData : Package) : Bool :=
  decide (packageData.minimum_amount ≤ cached.main_balance)

/-- `handleInvest` (Dashboard page).  Mirrors the source order of
effects, always investing `packageData.minimum_amount`:
1. guard `canInvest` against the cached wallet, else no write;
2. insert an `investments` row with `amount = minimum_amount`,
   `expected_return = minimum_amount * multiplier`,
   `end_date = now + 365` (the source hardcodes a 1-year period and
   ignores `package.duration_days`), `status: 'active'`;
3. insert a `transactions` row of type `investment` with
   `reference_id = investment.id` and client-computed
   `balance_before`/`balance_after` from the cached wallet — this
   fires the `update_wallet_balance` trigger;
4. overwrite the wallet row with absolute values computed from the
   cached snapshot (`main_balance := cached - amount`,
   `total_invested := cached + amount`). -/
def handleInvest (db : DB) (uid : String) (packageData : Package)
    (cached : Wallet) (newInvestmentId : String) (now : Nat) : DB :=
  if !canInvest cached packageData then db
  else
    let a := packageData.minimum_amount
    let inv : InvestmentRow :=
      { id := newInvestmentId, user_id := uid
        package_id := packageData.id, amount := a
        expected_return := a * packageData.multiplier
        end_date := now + 365, status := .active }
    let db1 := { db with investments := db.investments ++ [inv] }
    let t : Txn :=
      { user_id := uid, type := .investment, amount := a
        description := "Investment in " ++ packageData.name ++ " package"
        reference_id := some newInvestmentId
        balance_before := cached.main_balance
        balance_after := cached.main_balance - a }
    let db2 := insertTransaction db1 t
    { db2 with wallets := fun u =>
        if u = uid then
          { db2.wallets u with
            main_balance := cached.main_balance - a
            total_invested := cached.total_invested + a }
        else db2.wallets u }

/-- `transferReferralBonus` (Referrals page).  If the cached
`referral_bonus_balance` is zero or negative (the source guard
`!walletData?.referral_bonus_balance || ... <= 0`; `0` is falsy) the
handler writes nothing.  Otherwise it
1. inserts a `transactions` row of type `referral_bonus_transfer`
   whose amount is the full cached bonus, with client-computed
   `balance_before`/`balance_after` snapshots of `main_balance` —
   firing the trigger, whose dispatch has no branch for this type;
2. overwrites the wallet row with
   `main_balance := cached main + bonus` and
   `referral_bonus_balance := 0`. -/
def transferReferralBonus (db : DB) (uid : String) (cached : Wallet) :
    DB :=
  if cached.referral_bonus_balance ≤ 0 then db
  else
    let bonus := cached.referral_bonus_balance
    let t : Txn :=
      { user_id := uid, type := .referral_bonus_transfer, amount := bonus
        description := "Referral bonus transfer to main balance"
        reference_id := none
        balance_before := cached.main_balance
        balance_after := cached.main_balance + bonus }
    let db1 := insertTransaction db t
    { db1 with wallets := fun u =>
        if u = uid then
          { db1.wallets u with
            main_balance := cached.main_balance + bonus
            referral_bonus_balance := 0 }
        else db1.wallets u }

/-- Referral code generation inside `handle_new_user`:
`'NA' || UPPER(SUBSTRING(MD5(NEW.id::text), 1, 6))`.  The MD5 digest
(32 lowercase hex characters) is an external primitive, passed in as
`md5hex`. -/
def refCode (md5hex : String → String) (uid : String) : String :=
  "NA" ++ ((md5hex uid).take 6).toUpper

/-- Errors signalled by account provisioning, surfacing the uniqueness
violations the `profiles`/`wallets` inserts can raise:
`DuplicateAccount` when a profile or wallet row already exists for the
user id (UNIQUE `user_id` on both tables), and `ReferralCodeCollision`
when another profile already holds the generated referral code
(`referral_code TEXT UNIQUE NOT NULL`). -/
inductive ProvisionError where
  | DuplicateAccount
  | ReferralCodeCollision
deriving DecidableEq, BEq

/-- The signup trigger `public.handle_new_user()`: as one atomic unit,
insert a `profiles` row (referral code derived from the user id) and a
`wallets` row with all column defaults (all balances `0.00`).  A
violation of the UNIQUE `user_id` constraint on either table, or of
the UNIQUE `referral_code` constraint when the generated
`'NA' || UPPER(SUBSTRING(MD5(id), 1, 6))` code collides with an
existing profile's code, aborts the whole unit with no retry, leaving
the database unchanged. -/
def handle_new_user (md5hex : String → String) (db : DB)
    (uid fullName phone email : String) :
    Except ProvisionError DB :=
  if db.profiles.any (fun p => p.user_id == uid) ||
     db.walletOwners.any (fun v => v == uid) then
    .error .DuplicateAccount
  else if db.profiles.any
      (fun p => p.referral_code == refCode md5hex uid) then
    .error .ReferralCodeCollision
  else
    .ok { db with
      profiles := db.profiles ++
        [{ user_id := uid, full_name := fullName, phone := phone
           email := email, referral_code := refCode md5hex uid }]
      walletOwners := db.walletOwners ++ [uid]
      wallets := fun u => if u = uid then zeroWallet else db.wallets u }

/-- Sum of the amounts of the transactions of a given user and type in
a transaction log. -/
def sumAmounts : List Txn → String → TransactionType → Rat
  | [], _, _ => 0
  | t :: ts, u, ty =>
      (if t.user_id = u ∧ t.type = ty then t.amount else 0) +
        sumAmounts ts u ty

/-- The signed sum of a user's transaction log over the `main_balance`
column as the trigger actually applies it: `deposit` and `profit` add,
`withdrawal` and `investment` subtract; `referral_commission` and
`referral_bonus_transfer` contribute nothing. -/
def mainSum (ts : List Txn) (u : String) : Rat :=
  sumAmounts ts u .deposit + sumAmounts ts u .profit
    - sumAmounts ts u .withdrawal - sumAmounts ts u .investment

/-- The operations a user can invoke against the store, as embedded
from the source pages: signup (provisioning trigger), deposit request,
withdrawal request, investment purchase, referral-bonus transfer, and
a raw transaction insert (the primitive the invest/transfer handlers
use).  The `transactions` table's row-level security grants users
`SELECT` only, so no user-invocable operation updates or deletes an
existing transaction row; cached wallet snapshots are part of the
operation, so arbitrary staleness is covered. -/
inductive Op where
  | signup (md5hex : String → String)
      (uid fullName phone email : String)
  | depositRequest (uid : String) (amount : Rat) (tref : String)
  | withdrawRequest (uid : String) (amount : Rat) (phone : String)
      (cached : Wallet)
  | invest (uid : String) (packageData : Package) (cached : Wallet)
      (newInvestmentId : String) (now : Nat)
  | transferBonus (uid : String) (cached : Wallet)
  | recordTxn (t : Txn)

/-- One user-invocable step: dispatch to the corresponding handler.  A
failed signup (duplicate account) leaves the database unchanged. -/
def applyOp (db : DB) (op : Op) : DB :=
  match op with
  | .signup md5hex uid fullName phone email =>
      match handle_new_user md5hex db uid fullName phone email with
      | .ok db' => db'
      | .error _ => db
  | .depositRequest uid amount tref => handleDeposit db uid amount tref
  | .withdrawRequest uid amount phone cached =>
      handleWithdraw db uid amount phone cached
  | .invest uid packageData cached newId now =>
      handleInvest db uid packageData cached newId now
  | .transferBonus uid cached => transferReferralBonus db uid cached
  | .recordTxn t => insertTransaction db t

/-- A finite sequence of user-invocable steps, applied in order. -/
def applyOps (db : DB) (ops : List Op) : DB :=
  ops.foldl applyOp db

/-- Fixture: a database with a single provisioned user `"u1"` holding
`main_balance = 50` and an otherwise empty ledger. -/
def dbFix : DB :=
  { profiles := [{ user_id := "u1", full_name := "User", phone := ""
                   email := "u1@example.com", referral_code := "NA000000" }]
    walletOwners := ["u1"]
    wallets := fun u =>
      if u = "u1" then
        { main_balance := 50, referral_bonus_balance := 0
          total_invested := 0, total_profits := 0 }
      else zeroWallet
    transactions := []
    deposits := []
    withdrawals := []
    investments := [] }

/-- Fixture: a withdrawal transaction of 100 for `"u1"`, exceeding the
50 held in `dbFix`. -/
def txnOverdraw : Txn :=
  { user_id := "u1", type := .withdrawal, amount := 100
    description := "overdraw", reference_id := none
    balance_before := 50, balance_after := -50 }

/-- Fixture: a deposit transaction with the non-positive amount `-5`. -/
def txnNegDeposit : Txn :=
  { user_id := "u1", type := .deposit, amount := -5
    description := "negative deposit", reference_id := none
    balance_before := 50, balance_after := 45 }

/-- Fixture: a transaction whose caller-supplied `balance_before`
(`999`) disagrees with the wallet pre-image (`50`) in `dbFix`. -/
def txnFakeSnapshot : Txn :=
  { user_id := "u1", type := .deposit, amount := 10
    description := "fabricated snapshot", reference_id := none
    balance_before := 999, balance_after := 1009 }

/-- Fixture: a referral-bonus-transfer transaction of 50 for `"u1"`. -/
def txnTransfer : Txn :=
  { user_id := "u1", type := .referral_bonus_transfer, amount := 50
    description := "Referral bonus transfer to main balance"
    reference_id := none, balance_before := 50, balance_after := 100 }

/-- Fixture: a package whose `duration_days` is 30, not the hardcoded
365 of `handleInvest`. -/
def pkgShort : Package :=
  { id := "pkg30", name := "Short", minimum_amount := 10
    multiplier := 3, duration_days := 30, active := true }

/-- Fixture: like `dbFix` but the user also holds a referral bonus of
40 (main 100, bonus 40). -/
def dbBonus : DB :=
  { dbFix with wallets := fun u =>
      if u = "u1" then
        { main_balance := 100, referral_bonus_balance := 40
          total_invested := 0, total_profits := 0 }
      else zeroWallet }

/-- Fixture: a database with every wallet at the all-zero defaults and
an empty ledger. -/
def dbZero : DB :=
  { profiles := []
    walletOwners := ["u1"]
    wallets := fun _ => zeroWallet
    transactions := []
    deposits := []
    withdrawals := []
    investments := [] }

/-- Fixture: a referral commission of 100 for `"u1"`. -/
def txnRC : Txn :=
  { user_id := "u1", type := .referral_commission, amount := 100
    description := "commission", reference_id := none
    balance_before := 0, balance_after := 100 }

/-- Fixture: a referral-bonus transfer of 100 for `"u1"`. -/
def txnRBT : Txn :=
  { user_id := "u1", type := .referral_bonus_transfer, amount := 100
    description := "Referral bonus transfer to main balance"
    reference_id := none, balance_before := 0, balance_after := 100 }

/-- Fixture: a cached wallet snapshot with main 50 and bonus 20. -/
def walletC5 : Wallet :=
  { main_balance := 50, referral_bonus_balance := 20
    total_invested := 0, total_profits := 0 }

/-- Fixture: a stand-in for the external MD5 primitive, returning a
fixed 32-character lowercase hex digest. -/
def md5Fix : String → String :=
  fun _ => "9e107d9d372bb6826bd81d3542a419d6"

/-- C2 counterexample: the claim's dispatch row for
`referral_bonus_transfer` (`+amount` to `main_balance`) is false of the
trigger: `update_wallet_balance` has no branch for that type and leaves
the wallet unchanged, so recording `txnTransfer` (amount 50) on a
wallet with `main_balance = 100` leaves `main_balance = 100`, not
`100 + 50`. -/
theorem C2_transfer_no_trigger_delta :
    (update_wallet_balance
        { main_balance := 100, referral_bonus_balance := 50
          total_invested := 0, total_profits := 0 } txnTransfer).main_balance
      ≠ 100 + txnTransfer.amount := by
  norm_num [update_wallet_balance, txnTransfer]

/-- C2 (amended): the trigger's dispatch table.  For the five kinds it
has branches for, recording one transaction of amount `a` applies
exactly the claimed delta and changes no other balance field (stated as
whole-record equalities); for `referral_bonus_transfer` the trigger
changes nothing at all — the transfer's balance move is performed by
`transferReferralBonus`'s separate wallet update, not by the trigger. -/
theorem C2_dispatch_table (w : Wallet) (u d : String) (r : Option String)
    (a bb ba : Rat) :
    update_wallet_balance w ⟨u, .deposit, a, d, r, bb, ba⟩ =
      { w with main_balance := w.main_balance + a } ∧
    update_wallet_balance w ⟨u, .withdrawal, a, d, r, bb, ba⟩ =
      { w with main_balance := w.main_balance - a } ∧
    update_wallet_balance w ⟨u, .investment, a, d, r, bb, ba⟩ =
      { w with main_balance := w.main_balance - a
               total_invested := w.total_invested + a } ∧
    update_wallet_balance w ⟨u, .profit, a, d, r, bb, ba⟩ =
      { w with main_balance := w.main_balance + a
               total_profits := w.total_profits + a } ∧
    update_wallet_balance w ⟨u, .referral_commission, a, d, r, bb, ba⟩ =
      { w with referral_bonus_balance := w.referral_bonus_balance + a } ∧
    update_wallet_balance w ⟨u, .referral_bonus_transfer, a, d, r, bb, ba⟩
      = w :=
  ⟨rfl, rfl, rfl, rfl, rfl, rfl⟩

/-- C3 counterexample: inserting the withdrawal `txnOverdraw` (amount
100) for the user of `dbFix` (who holds `main_balance = 50`) does not
fail — `insertTransaction` is total — and leaves
`main_balance = -50 < 0`, refuting both the `InsufficientFunds` failure
and the never-negative consequence of the claim. -/
theorem C3_overdraw_goes_negative :
    ((insertTransaction dbFix txnOverdraw).wallets "u1").main_balance = -50
      ∧ ((insertTransaction dbFix txnOverdraw).wallets "u1").main_balance
        < 0 := by
  constructor <;>
    norm_num [insertTransaction, update_wallet_balance, dbFix, txnOverdraw]

/-- C3 (amended): no insufficient-funds check exists in the transaction
path: inserting a withdrawal transaction always succeeds and sets
`main_balance` to the pre-image minus the amount, whatever its sign.
The only guard in the code is `handleWithdraw`'s client-side pre-flight
check against its cached `main_balance`, which blocks the withdrawal
request when the amount exceeds the cached (possibly stale) balance. -/
theorem C3_no_funds_check (db : DB) (t : Txn) (uid : String)
    (amount : Rat) (phone : String) (cached : Wallet)
    (ht : t.type = .withdrawal) (hc : cached.main_balance < amount) :
    ((insertTransaction db t).wallets t.user_id).main_balance =
      (db.wallets t.user_id).main_balance - t.amount ∧
    handleWithdraw db uid amount phone cached = db := by
  constructor
  · simp [insertTransaction, update_wallet_balance, ht]
  · simp [handleWithdraw, hc]

/-- C3 witness: the amended statement at `dbFix` / `txnOverdraw` with a
cached balance of 50 against a request of 100. -/
theorem C3_no_funds_check_witness :
    txnOverdraw.type = .withdrawal ∧
    (dbFix.wallets "u1").main_balance < 100 ∧
    (((insertTransaction dbFix txnOverdraw).wallets
        txnOverdraw.user_id).main_balance =
      (dbFix.wallets txnOverdraw.user_id).main_balance - txnOverdraw.amount ∧
    handleWithdraw dbFix "u1" 100 "0700000000" (dbFix.wallets "u1") =
      dbFix) :=
  ⟨rfl, by norm_num [dbFix],
    C3_no_funds_check dbFix txnOverdraw "u1" 100 "0700000000"
      (dbFix.wallets "u1") rfl (by norm_num [dbFix])⟩

/-- C4 counterexample: inserting the deposit `txnNegDeposit` (amount
`-5 ≤ 0`) into `dbFix` does not fail with `InvalidAmount`: the row is
appended and the wallet mutates from `main_balance = 50` to `45`. -/
theorem C4_negative_amount_accepted :
    txnNegDeposit.amount ≤ 0 ∧
    (insertTransaction dbFix txnNegDeposit).transactions ≠
      dbFix.transactions ∧
    ((insertTransaction dbFix txnNegDeposit).wallets "u1").main_balance =
      45 := by
  refine ⟨by norm_num [txnNegDeposit], by simp [insertTransaction, dbFix],
    by norm_num [insertTransaction, update_wallet_balance, dbFix,
      txnNegDeposit]⟩

/-- C4 (amended): neither the `transactions` table nor the trigger
checks the sign of `amount`: inserting a deposit transaction with
`amount ≤ 0` succeeds, appends the row, and still applies the signed
delta — `main_balance` becomes `pre + amount`, which for a non-positive
amount does not increase the balance. -/
theorem C4_no_amount_check (db : DB) (u d : String) (r : Option String)
    (bb ba a : Rat) (h : a ≤ 0) :
    (insertTransaction db ⟨u, .deposit, a, d, r, bb, ba⟩).transactions =
      db.transactions ++ [⟨u, .deposit, a, d, r, bb, ba⟩] ∧
    ((insertTransaction db ⟨u, .deposit, a, d, r, bb, ba⟩).wallets
        u).main_balance = (db.wallets u).main_balance + a ∧
    (db.wallets u).main_balance + a ≤ (db.wallets u).main_balance := by
  refine ⟨rfl, ?_, by linarith⟩
  simp [insertTransaction, update_wallet_balance]

/-- C4 witness: the amended statement at `dbFix` with the concrete
amount `-5`. -/
theorem C4_no_amount_check_witness :
    ((-5 : Rat) ≤ 0) ∧
    ((insertTransaction dbFix
        ⟨"u1", .deposit, -5, "negative deposit", none, 50, 45⟩).transactions
        = dbFix.transactions ++
          [⟨"u1", .deposit, -5, "negative deposit", none, 50, 45⟩] ∧
    ((insertTransaction dbFix
        ⟨"u1", .deposit, -5, "negative deposit", none, 50, 45⟩).wallets
        "u1").main_balance = (dbFix.wallets "u1").main_balance + (-5) ∧
    (dbFix.wallets "u1").main_balance + (-5) ≤
      (dbFix.wallets "u1").main_balance) :=
  ⟨by norm_num,
    C4_no_amount_check dbFix "u1" "negative deposit" none 50 45 (-5)
      (by norm_num)⟩

/-- C9: submitting a deposit request appends exactly one `pending` row
to `deposits` and changes nothing else, and submitting a withdrawal
request that passes the client-side balance guard appends exactly one
`pending` row to `withdrawals` and changes nothing else — in
particular no transaction row is created and no wallet balance moves
until the admin workflow acts. -/
theorem C9_requests_only_append (db : DB) (uid : String) (amount : Rat)
    (tref phone : String) (cached : Wallet)
    (h : amount ≤ cached.main_balance) :
    handleDeposit db uid amount tref =
      { db with deposits := db.deposits ++
          [{ user_id := uid, amount := amount
             transaction_reference := tref, status := .pending }] } ∧
    handleWithdraw db uid amount phone cached =
      { db with withdrawals := db.withdrawals ++
          [{ user_id := uid, amount := amount, phone_number := phone
             status := .pending }] } := by
  refine ⟨rfl, ?_⟩
  simp [handleWithdraw, not_lt.mpr h]

/-- C9 witness: the statement at `dbFix`, requesting 20 of the 50
held. -/
theorem C9_requests_only_append_witness :
    ((20 : Rat) ≤ (dbFix.wallets "u1").main_balance) ∧
    (handleDeposit dbFix "u1" 20 "MPESA123" =
      { dbFix with deposits := dbFix.deposits ++
          [{ user_id := "u1", amount := 20
             transaction_reference := "MPESA123"
             status := .pending }] } ∧
    handleWithdraw dbFix "u1" 20 "0700000000" (dbFix.wallets "u1") =
      { dbFix with withdrawals := dbFix.withdrawals ++
          [{ user_id := "u1", amount := 20, phone_number := "0700000000"
             status := .pending }] }) :=
  ⟨by norm_num [dbFix],
    C9_requests_only_append dbFix "u1" 20 "MPESA123" "0700000000"
      (dbFix.wallets "u1") (by norm_num [dbFix])⟩

/-- C10: with a fresh cache (the cached snapshot is the current wallet
row), `transferReferralBonus` moves the entire bonus: when the bonus is
positive it appends exactly one `referral_bonus_transfer` transaction
for the full bonus, leaves `main_balance` increased by exactly the
prior bonus, sets `referral_bonus_balance` to exactly 0, and touches no
other table or balance; when the bonus is `≤ 0` it performs no write at
all. -/
theorem C10_transfer_moves_all (db : DB) (uid : String) :
    (0 < (db.wallets uid).referral_bonus_balance →
      (transferReferralBonus db uid (db.wallets uid)).transactions =
        db.transactions ++
          [{ user_id := uid, type := .referral_bonus_transfer
             amount := (db.wallets uid).referral_bonus_balance
             description := "Referral bonus transfer to main balance"
             reference_id := none
             balance_before := (db.wallets uid).main_balance
             balance_after := (db.wallets uid).main_balance +
               (db.wallets uid).referral_bonus_balance }] ∧
      ((transferReferralBonus db uid (db.wallets uid)).wallets
          uid).main_balance =
        (db.wallets uid).main_balance +
          (db.wallets uid).referral_bonus_balance ∧
      ((transferReferralBonus db uid (db.wallets uid)).wallets
          uid).referral_bonus_balance = 0 ∧
      ((transferReferralBonus db uid (db.wallets uid)).wallets
          uid).total_invested = (db.wallets uid).total_invested ∧
      ((transferReferralBonus db uid (db.wallets uid)).wallets
          uid).total_profits = (db.wallets uid).total_profits ∧
      (transferReferralBonus db uid (db.wallets uid)).deposits =
        db.deposits ∧
      (transferReferralBonus db uid (db.wallets uid)).withdrawals =
        db.withdrawals ∧
      (transferReferralBonus db uid (db.wallets uid)).investments =
        db.investments ∧
      (transferReferralBonus db uid (db.wallets uid)).profiles =
        db.profiles) ∧
    ((db.wallets uid).referral_bonus_balance ≤ 0 →
      transferReferralBonus db uid (db.wallets uid) = db) := by
  constructor
  · intro h
    have h' : ¬ (db.wallets uid).referral_bonus_balance ≤ 0 := not_le.mpr h
    simp [transferReferralBonus, h', insertTransaction,
      update_wallet_balance]
  · intro h
    simp [transferReferralBonus, h]

/-- C10 witness: both branches at concrete states — `dbBonus` (bonus
40 > 0) and `dbFix` (bonus 0). -/
theorem C10_transfer_moves_all_witness :
    (0 < (dbBonus.wallets "u1").referral_bonus_balance) ∧
    ((dbFix.wallets "u1").referral_bonus_balance ≤ 0) ∧
    ((transferReferralBonus dbBonus "u1" (dbBonus.wallets "u1")).wallets
        "u1").main_balance =
      (dbBonus.wallets "u1").main_balance +
        (dbBonus.wallets "u1").referral_bonus_balance ∧
    ((transferReferralBonus dbBonus "u1" (dbBonus.wallets "u1")).wallets
        "u1").referral_bonus_balance = 0 ∧
    transferReferralBonus dbFix "u1" (dbFix.wallets "u1") = dbFix :=
  ⟨by norm_num [dbBonus], by norm_num [dbFix],
    ((C10_transfer_moves_all dbBonus "u1").1 (by norm_num [dbBonus])).2.1,
    ((C10_transfer_moves_all dbBonus "u1").1 (by norm_num [dbBonus])).2.2.1,
    (C10_transfer_moves_all dbFix "u1").2 (by norm_num [dbFix])⟩

/-- Folding one more transaction insert: `List.foldl` cons step. -/
theorem applyTxns_cons (db : DB) (t : Txn) (ts : List Txn) :
    applyTxns db (t :: ts) = applyTxns (insertTransaction db t) ts := rfl

/-- How the balances of one user's wallet row evolve under a fold of
transaction inserts: each field changes by the corresponding signed sum
the trigger actually implements (`referral_bonus_transfer` contributing
nothing anywhere, `referral_commission` only to the bonus balance). -/
theorem applyTxns_wallet_eq (ts : List Txn) (db : DB) (u : String) :
    ((applyTxns db ts).wallets u).main_balance =
      (db.wallets u).main_balance + mainSum ts u ∧
    ((applyTxns db ts).wallets u).referral_bonus_balance =
      (db.wallets u).referral_bonus_balance +
        sumAmounts ts u .referral_commission ∧
    ((applyTxns db ts).wallets u).total_invested =
      (db.wallets u).total_invested + sumAmounts ts u .investment ∧
    ((applyTxns db ts).wallets u).total_profits =
      (db.wallets u).total_profits + sumAmounts ts u .profit := by
  induction ts generalizing db with
  | nil => simp [applyTxns, mainSum, sumAmounts]
  | cons t ts ih =>
    obtain ⟨h1, h2, h3, h4⟩ := ih (insertTransaction db t)
    rw [applyTxns_cons]
    by_cases hu : u = t.user_id
    · cases hty : t.type <;>
        refine ⟨?_, ?_, ?_, ?_⟩ <;>
          (simp only [h1, h2, h3, h4]
           simp [insertTransaction, update_wallet_balance, mainSum,
             sumAmounts, hu, hty]) <;> ring
    · refine ⟨?_, ?_, ?_, ?_⟩ <;>
        (simp only [h1, h2, h3, h4]
         simp [insertTransaction, mainSum, sumAmounts, hu, Ne.symm hu])

/-- C1 counterexample: after recording a referral commission of 100 and
then a referral-bonus transfer of 100 (both for `"u1"`, starting from
all-zero wallets), `referral_bonus_balance` is 100, not the claimed
`sum(referral_commission) - sum(referral_bonus_transfer) = 0`: the
trigger has no branch for `referral_bonus_transfer` and never subtracts
it. -/
theorem C1_bonus_sum_fails_on_transfer :
    ((applyTxns dbZero [txnRC, txnRBT]).wallets "u1").referral_bonus_balance
      ≠ sumAmounts [txnRC, txnRBT] "u1" .referral_commission -
          sumAmounts [txnRC, txnRBT] "u1" .referral_bonus_transfer := by
  simp only [applyTxns, insertTransaction, update_wallet_balance, dbZero,
    txnRC, txnRBT, sumAmounts, zeroWallet, List.foldl]
  simp

/-- C1 (amended): for every user, after any finite sequence of recorded
transactions starting from an all-zero wallet, the trigger maintains:
`main_balance` = sum of deposits plus profits minus withdrawals minus
investments; `total_invested` = sum of investments; `total_profits` =
sum of profits — exactly as claimed; but `referral_bonus_balance` =
sum of referral commissions only, since the trigger ignores
`referral_bonus_transfer` transactions (their balance move happens in
`transferReferralBonus`'s separate client-side wallet update, outside
the transaction-insert path). -/
theorem C1_balances_equal_trigger_sums (ts : List Txn) (u : String)
    (db : DB) (h : db.wallets u = zeroWallet) :
    ((applyTxns db ts).wallets u).main_balance = mainSum ts u ∧
    ((applyTxns db ts).wallets u).referral_bonus_balance =
      sumAmounts ts u .referral_commission ∧
    ((applyTxns db ts).wallets u).total_invested =
      sumAmounts ts u .investment ∧
    ((applyTxns db ts).wallets u).total_profits =
      sumAmounts ts u .profit := by
  obtain ⟨h1, h2, h3, h4⟩ := applyTxns_wallet_eq ts db u
  rw [h1, h2, h3, h4, h]
  simp [zeroWallet]

/-- C1 witness: the amended invariant evaluated on the concrete log
`[txnRC, txnRBT]` over the all-zero database `dbZero`. -/
theorem C1_balances_equal_trigger_sums_witness :
    dbZero.wallets "u1" = zeroWallet ∧
    (((applyTxns dbZero [txnRC, txnRBT]).wallets "u1").main_balance =
      mainSum [txnRC, txnRBT] "u1" ∧
    ((applyTxns dbZero [txnRC, txnRBT]).wallets
        "u1").referral_bonus_balance =
      sumAmounts [txnRC, txnRBT] "u1" .referral_commission ∧
    ((applyTxns dbZero [txnRC, txnRBT]).wallets "u1").total_invested =
      sumAmounts [txnRC, txnRBT] "u1" .investment ∧
    ((applyTxns dbZero [txnRC, txnRBT]).wallets "u1").total_profits =
      sumAmounts [txnRC, txnRBT] "u1" .profit) :=
  ⟨rfl, C1_balances_equal_trigger_sums [txnRC, txnRBT] "u1" dbZero rfl⟩

/-- C5 counterexample: `balance_before` is caller-supplied, not
computed inside the operation: inserting `txnFakeSnapshot` (whose
caller wrote `balance_before = 999`) into `dbFix` (whose wallet holds
`main_balance = 50` at the instant of the call) succeeds and stores
the row with `balance_before = 999 ≠ 50`. -/
theorem C5_snapshot_not_from_wallet :
    (dbFix.wallets txnFakeSnapshot.user_id).main_balance = 50 ∧
    (insertTransaction dbFix txnFakeSnapshot).transactions =
      dbFix.transactions ++ [txnFakeSnapshot] ∧
    txnFakeSnapshot.balance_before ≠ 50 := by
  refine ⟨by norm_num [dbFix, txnFakeSnapshot], rfl,
    by norm_num [txnFakeSnapshot]⟩

/-- C5 (amended): `balance_before`/`balance_after` are computed by the
calling page from its cached wallet snapshot, not inside the ledger
operation.  For the app's own writers the stored pair is internally
consistent: `handleInvest` appends a transaction with `balance_before`
equal to the cached `main_balance` and `balance_after = balance_before
- amount`; `transferReferralBonus` appends one with `balance_before`
equal to the cached `main_balance` and `balance_after = balance_before
+ bonus`; the trigger then applies the same delta to the wallet row's
current value (not to `balance_before`). -/
theorem C5_handler_snapshots (db : DB) (uid : String) (pk : Package)
    (cached : Wallet) (nid : String) (now : Nat)
    (hg : canInvest cached pk = true)
    (hb : 0 < cached.referral_bonus_balance) :
    (∃ t : Txn,
      (handleInvest db uid pk cached nid now).transactions =
        db.transactions ++ [t] ∧
      t.balance_before = cached.main_balance ∧
      t.balance_after = t.balance_before - pk.minimum_amount ∧
      t.amount = pk.minimum_amount) ∧
    (∃ t : Txn,
      (transferReferralBonus db uid cached).transactions =
        db.transactions ++ [t] ∧
      t.balance_before = cached.main_balance ∧
      t.balance_after = t.balance_before + cached.referral_bonus_balance ∧
      t.amount = cached.referral_bonus_balance) := by
  constructor
  · refine ⟨⟨uid, .investment, pk.minimum_amount,
      "Investment in " ++ pk.name ++ " package", some nid,
      cached.main_balance, cached.main_balance - pk.minimum_amount⟩,
      ?_, rfl, rfl, rfl⟩
    simp [handleInvest, hg, insertTransaction]
  · refine ⟨⟨uid, .referral_bonus_transfer,
      cached.referral_bonus_balance,
      "Referral bonus transfer to main balance", none,
      cached.main_balance,
      cached.main_balance + cached.referral_bonus_balance⟩,
      ?_, rfl, rfl, rfl⟩
    simp [transferReferralBonus, not_le.mpr hb, insertTransaction]

/-- C5 witness: the amended statement at `dbFix` with the cached
snapshot `walletC5` (main 50, bonus 20) and the package `pkgShort`. -/
theorem C5_handler_snapshots_witness :
    canInvest walletC5 pkgShort = true ∧
    (0 : Rat) < walletC5.referral_bonus_balance ∧
    ((∃ t : Txn,
      (handleInvest dbFix "u1" pkgShort walletC5 "inv1" 0).transactions =
        dbFix.transactions ++ [t] ∧
      t.balance_before = walletC5.main_balance ∧
      t.balance_after = t.balance_before - pkgShort.minimum_amount ∧
      t.amount = pkgShort.minimum_amount) ∧
    (∃ t : Txn,
      (transferReferralBonus dbFix "u1" walletC5).transactions =
        dbFix.transactions ++ [t] ∧
      t.balance_before = walletC5.main_balance ∧
      t.balance_after = t.balance_before +
        walletC5.referral_bonus_balance ∧
      t.amount = walletC5.referral_bonus_balance)) :=
  ⟨by simp [canInvest, walletC5, pkgShort]; norm_num,
   by norm_num [walletC5],
   C5_handler_snapshots dbFix "u1" pkgShort walletC5 "inv1" 0
     (by simp [canInvest, walletC5, pkgShort]; norm_num)
     (by norm_num [walletC5])⟩

/-- C6 counterexample: for `pkgShort` (`duration_days = 30`),
`handleInvest` at clock 1000 creates the investment with
`end_date = 1365` — the hardcoded `now + 365` — instead of the claimed
`now + duration_days = 1030`. -/
theorem C6_end_date_ignores_duration :
    ((handleInvest dbFix "u1" pkgShort (dbFix.wallets "u1") "inv1"
        1000).investments.map InvestmentRow.end_date) = [1365] ∧
    1000 + pkgShort.duration_days ≠ 1365 := by
  have hg : canInvest (dbFix.wallets "u1") pkgShort = true := by
    simp [canInvest, dbFix, pkgShort]; norm_num
  refine ⟨?_, by norm_num [pkgShort]⟩
  simp only [handleInvest, hg]
  simp [insertTransaction, dbFix]

/-- C6 (amended): `handleInvest` invests exactly
`package.minimum_amount` (there is no caller-chosen amount) and, with a
fresh cache and the guard passing, creates one Investment row with
`expected_return = minimum_amount × multiplier`,
`end_date = now + 365` (hardcoded one-year period, ignoring
`duration_days`), status `active`; appends one paired transaction of
kind `investment` with the same amount and `reference_id` equal to the
new Investment's id; and the wallet's `total_invested` rises by exactly
`minimum_amount` while `main_balance` falls by exactly
`minimum_amount`, the other two balances unchanged. -/
theorem C6_invest_effects (db : DB) (uid : String) (pk : Package)
    (nid : String) (now : Nat)
    (hg : canInvest (db.wallets uid) pk = true) :
    (handleInvest db uid pk (db.wallets uid) nid now).investments =
      db.investments ++
        [{ id := nid, user_id := uid, package_id := pk.id
           amount := pk.minimum_amount
           expected_return := pk.minimum_amount * pk.multiplier
           end_date := now + 365, status := .active }] ∧
    (handleInvest db uid pk (db.wallets uid) nid now).transactions =
      db.transactions ++
        [{ user_id := uid, type := .investment
           amount := pk.minimum_amount
           description := "Investment in " ++ pk.name ++ " package"
           reference_id := some nid
           balance_before := (db.wallets uid).main_balance
           balance_after := (db.wallets uid).main_balance -
             pk.minimum_amount }] ∧
    ((handleInvest db uid pk (db.wallets uid) nid now).wallets
        uid).main_balance =
      (db.wallets uid).main_balance - pk.minimum_amount ∧
    ((handleInvest db uid pk (db.wallets uid) nid now).wallets
        uid).total_invested =
      (db.wallets uid).total_invested + pk.minimum_amount ∧
    ((handleInvest db uid pk (db.wallets uid) nid now).wallets
        uid).total_profits = (db.wallets uid).total_profits ∧
    ((handleInvest db uid pk (db.wallets uid) nid now).wallets
        uid).referral_bonus_balance =
      (db.wallets uid).referral_bonus_balance := by
  refine ⟨?_, ?_, ?_, ?_, ?_, ?_⟩ <;>
    simp [handleInvest, hg, insertTransaction, update_wallet_balance]

/-- C6 witness: the amended statement at `dbFix` (wallet main 50) with
`pkgShort` (minimum 10, multiplier 3) at clock 1000. -/
theorem C6_invest_effects_witness :
    canInvest (dbFix.wallets "u1") pkgShort = true ∧
    (handleInvest dbFix "u1" pkgShort (dbFix.wallets "u1") "inv1"
        1000).investments =
      dbFix.investments ++
        [{ id := "inv1", user_id := "u1", package_id := pkgShort.id
           amount := pkgShort.minimum_amount
           expected_return := pkgShort.minimum_amount *
             pkgShort.multiplier
           end_date := 1000 + 365, status := .active }] ∧
    ((handleInvest dbFix "u1" pkgShort (dbFix.wallets "u1") "inv1"
        1000).wallets "u1").main_balance =
      (dbFix.wallets "u1").main_balance - pkgShort.minimum_amount ∧
    ((handleInvest dbFix "u1" pkgShort (dbFix.wallets "u1") "inv1"
        1000).wallets "u1").total_invested =
      (dbFix.wallets "u1").total_invested + pkgShort.minimum_amount :=
  ⟨by simp [canInvest, dbFix, pkgShort]; norm_num,
   (C6_invest_effects dbFix "u1" pkgShort "inv1" 1000
      (by simp [canInvest, dbFix, pkgShort]; norm_num)).1,
   (C6_invest_effects dbFix "u1" pkgShort "inv1" 1000
      (by simp [canInvest, dbFix, pkgShort]; norm_num)).2.2.1,
   (C6_invest_effects dbFix "u1" pkgShort "inv1" 1000
      (by simp [canInvest, dbFix, pkgShort]; norm_num)).2.2.2.1⟩

/-- A successful `handle_new_user` never touches the `transactions`
table. -/
theorem handle_new_user_transactions (m : String → String) (db : DB)
    (uid f p e : String) (db' : DB)
    (h : handle_new_user m db uid f p e = .ok db') :
    db'.transactions = db.transactions := by
  unfold handle_new_user at h
  split at h
  · cases h
  · split at h
    · cases h
    · cases h
      rfl

/-- C7: provisioning a fresh user id — when no existing profile
already holds the generated referral code, since the trigger fails
outright (no retry) on a `referral_code` uniqueness violation —
creates exactly one profile whose referral code is the
`'NA'`-prefixed, uppercased 6-character truncation of the MD5 digest
of the user id (length 8 when the digest has its standard 32
characters), and exactly one wallet row with all four balances zero; a
second invocation for the same user id fails with `DuplicateAccount`,
leaving the single profile/wallet pair in place. -/
theorem C7_provision_once_then_duplicate (md5hex : String → String)
    (db : DB) (uid fullName phone email fn2 ph2 em2 : String)
    (hp : ∀ p ∈ db.profiles, p.user_id ≠ uid)
    (hw : uid ∉ db.walletOwners)
    (hc : ∀ p ∈ db.profiles, p.referral_code ≠ refCode md5hex uid)
    (hlen : (md5hex uid).length = 32) :
    ∃ db', handle_new_user md5hex db uid fullName phone email = .ok db' ∧
      (db'.profiles.filter (fun p => p.user_id == uid)).length = 1 ∧
      (∀ p ∈ db'.profiles, p.user_id = uid →
        p.referral_code = "NA" ++ ((md5hex uid).take 6).toUpper ∧
        p.referral_code.length = 8) ∧
      db'.walletOwners.count uid = 1 ∧
      db'.wallets uid = zeroWallet ∧
      handle_new_user md5hex db' uid fn2 ph2 em2 =
        .error .DuplicateAccount := by
  have hpa : (db.profiles.any (fun p => p.user_id == uid)) = false := by
    simp only [List.any_eq_false]
    intro p hpmem
    simp [hp p hpmem]
  have hwa : (db.walletOwners.any (fun v => v == uid)) = false := by
    simp only [List.any_eq_false]
    intro v hv
    have hne : v ≠ uid := fun h => hw (h ▸ hv)
    simp [hne]
  have hca : (db.profiles.any
      (fun p => p.referral_code == refCode md5hex uid)) = false := by
    simp only [List.any_eq_false]
    intro p hpmem
    simp [hc p hpmem]
  have hfilter : db.profiles.filter (fun p => p.user_id == uid) = [] := by
    simp only [List.filter_eq_nil_iff]
    intro p hpmem
    simp [hp p hpmem]
  have hdata : (md5hex uid).data.length = 32 := hlen
  have htakeData : ((md5hex uid).take 6).data.length = 6 := by
    rw [String.take_eq]
    show ((md5hex uid).data.take 6).length = 6
    rw [List.length_take, hdata]
    decide
  have hupper : (((md5hex uid).take 6).toUpper).length = 6 := by
    have h2 : ((md5hex uid).take 6).toUpper =
        String.mk (((md5hex uid).take 6).data.map Char.toUpper) := by
      rw [String.toUpper, String.map_eq]
    rw [h2]
    show (((md5hex uid).take 6).data.map Char.toUpper).length = 6
    rw [List.length_map]
    exact htakeData
  have hcode : (refCode md5hex uid).length = 8 := by
    have h1 : refCode md5hex uid =
        "NA" ++ ((md5hex uid).take 6).toUpper := rfl
    rw [h1, String.length_append, hupper]
    decide
  refine ⟨{ db with
      profiles := db.profiles ++
        [{ user_id := uid, full_name := fullName, phone := phone
           email := email, referral_code := refCode md5hex uid }]
      walletOwners := db.walletOwners ++ [uid]
      wallets := fun u => if u = uid then zeroWallet else db.wallets u },
    ?_, ?_, ?_, ?_, ?_, ?_⟩
  · simp only [handle_new_user, hpa, hwa, hca]
    rfl
  · simp [List.filter_append, hfilter]
  · intro p hpmem hpid
    rcases List.mem_append.mp hpmem with hmem | hmem
    · exact absurd hpid (hp p hmem)
    · rcases List.mem_singleton.mp hmem with rfl
      exact ⟨rfl, hcode⟩
  · simp [List.count_append, List.count_eq_zero.mpr hw]
  · simp
  · simp [handle_new_user]

/-- C7 witness: provisioning the fresh user id `"u2"` on `dbZero`
(whose only wallet owner is `"u1"` and which has no profiles) with the
fixed 32-character digest `md5Fix`. -/
theorem C7_provision_once_then_duplicate_witness :
    (∀ p ∈ dbZero.profiles, p.user_id ≠ "u2") ∧
    ("u2" ∉ dbZero.walletOwners) ∧
    (∀ p ∈ dbZero.profiles, p.referral_code ≠ refCode md5Fix "u2") ∧
    ((md5Fix "u2").length = 32) ∧
    (∃ db', handle_new_user md5Fix dbZero "u2" "User Two" "0711" "b@c.d"
        = .ok db' ∧
      (db'.profiles.filter (fun p => p.user_id == "u2")).length = 1 ∧
      (∀ p ∈ db'.profiles, p.user_id = "u2" →
        p.referral_code = "NA" ++ ((md5Fix "u2").take 6).toUpper ∧
        p.referral_code.length = 8) ∧
      db'.walletOwners.count "u2" = 1 ∧
      db'.wallets "u2" = zeroWallet ∧
      handle_new_user md5Fix db' "u2" "x" "y" "z" =
        .error .DuplicateAccount) :=
  ⟨by simp [dbZero], by simp [dbZero], by simp [dbZero], rfl,
    C7_provision_once_then_duplicate md5Fix dbZero "u2" "User Two"
      "0711" "b@c.d" "x" "y" "z" (by simp [dbZero]) (by simp [dbZero])
      (by simp [dbZero]) rfl⟩

/-- Each single user-invocable operation only ever appends to the
`transactions` table: the table's row-level security grants users
`SELECT` only, and every writer in the source at most inserts new
rows. -/
theorem applyOp_transactions (db : DB) (op : Op) :
    ∃ tl, (applyOp db op).transactions = db.transactions ++ tl := by
  cases op with
  | signup m uid f p e =>
    refine ⟨[], ?_⟩
    simp only [applyOp]
    cases h : handle_new_user m db uid f p e with
    | ok db' => simp [handle_new_user_transactions m db uid f p e db' h]
    | error err => simp
  | depositRequest uid amount tref =>
    exact ⟨[], by simp [applyOp, handleDeposit]⟩
  | withdrawRequest uid amount phone cached =>
    refine ⟨[], ?_⟩
    simp only [applyOp, handleWithdraw]
    split <;> simp
  | invest uid packageData cached newId now =>
    by_cases hg : canInvest cached packageData = true
    · exact ⟨[⟨uid, .investment, packageData.minimum_amount,
        "Investment in " ++ packageData.name ++ " package", some newId,
        cached.main_balance,
        cached.main_balance - packageData.minimum_amount⟩],
        by simp [applyOp, handleInvest, hg, insertTransaction]⟩
    · refine ⟨[], ?_⟩
      rw [Bool.not_eq_true] at hg
      simp [applyOp, handleInvest, hg]
  | transferBonus uid cached =>
    by_cases hb : cached.referral_bonus_balance ≤ 0
    · exact ⟨[], by simp [applyOp, transferReferralBonus, hb]⟩
    · exact ⟨[⟨uid, .referral_bonus_transfer,
        cached.referral_bonus_balance,
        "Referral bonus transfer to main balance", none,
        cached.main_balance,
        cached.main_balance + cached.referral_bonus_balance⟩],
        by simp [applyOp, transferReferralBonus, hb, insertTransaction]⟩
  | recordTxn t =>
    exact ⟨[t], by simp [applyOp, insertTransaction]⟩

/-- C8: the transaction log is append-only.  After any finite sequence
of user-invocable operations (signups, deposit and withdrawal
requests, investment purchases, referral-bonus transfers, and raw
transaction inserts — with arbitrary, possibly stale cached wallet
snapshots), the `transactions` table extends its previous content:
every previously inserted transaction row is still present, unchanged
and in place; no operation available to a user updates or deletes
one. -/
theorem C8_transactions_append_only (ops : List Op) (db : DB) :
    ∃ tl, (applyOps db ops).transactions = db.transactions ++ tl := by
  induction ops generalizing db with
  | nil => exact ⟨[], by simp [applyOps]⟩
  | cons op ops ih =>
    obtain ⟨l1, h1⟩ := applyOp_transactions db op
    obtain ⟨l2, h2⟩ := ih (applyOp db op)
    refine ⟨l1 ++ l2, ?_⟩
    have hstep : applyOps db (op :: ops) = applyOps (applyOp db op) ops :=
      rfl
    rw [hstep, h2, h1, List.append_assoc]
